import Mathlib

/-!
Verification of the rpaca streaming core (src/market_data/v2/stock_websocket.rs
and src/market_data/v2/crypto_websocket.rs) against its natural-language
specification.

The wire format is modelled by a small JSON value type; serde-derived
deserializers are embedded as explicit decoding functions, and the
reconnect-supervisor loop of `stream_stock_data` (structurally identical to
`stream_crypto_data`) is embedded as a step function over an environment
script describing what the network does during one iteration of the outer
`loop`.
-/

namespace Rpaca

/-- Decidable equality for decode results, used to evaluate the embedded
decoders on concrete wire samples. -/
instance {ε α : Type} [DecidableEq ε] [DecidableEq α] : DecidableEq (Except ε α)
  | .ok a, .ok b =>
    if h : a = b then .isTrue (by rw [h]) else .isFalse (by intro hh; cases hh; exact h rfl)
  | .ok _, .error _ => .isFalse (by intro hh; cases hh)
  | .error _, .ok _ => .isFalse (by intro hh; cases hh)
  | .error e, .error f =>
    if h : e = f then .isTrue (by rw [h]) else .isFalse (by intro hh; cases hh; exact h rfl)

/-- Model of a JSON value as handled by serde_json.  Numbers are modelled as
rationals (JSON numerals are decimal literals; no claim in scope depends on
binary floating-point rounding of wire numbers). -/
inductive Json where
  | null
  | bool (b : Bool)
  | num (q : ℚ)
  | str (s : String)
  | arr (elems : List Json)
  | obj (fields : List (String × Json))

/-- Field lookup in a JSON object (first occurrence, as serde_json reads maps
in order); `none` on non-objects. -/
def Json.getField : Json → String → Option Json
  | .obj fs, k => fs.lookup k
  | _, _ => none

/-- A JSON array of strings, the serialization of a `Vec<String>`. -/
def strArr (l : List String) : Json :=
  Json.arr (l.map Json.str)

/-- Decoder for a `String` field. -/
def decodeString : Json → Except String String
  | .str s => .ok s
  | _ => .error "invalid type: expected a string"

/-- Decoder for an `f64` field: any JSON number is accepted. -/
def decodeF64 : Json → Except String ℚ
  | .num q => .ok q
  | _ => .error "invalid type: expected a number"

/-- Decoder for an `i64` field: the JSON number must be an integer. -/
def decodeI64 : Json → Except String Int
  | .num q => if q.den = 1 then .ok q.num else .error "invalid type: expected an integer"
  | _ => .error "invalid type: expected an integer"

/-- Element-wise decoding of a JSON array, failing on the first element that
fails — the semantics of serde's derived `Vec<T>` deserializer. -/
def decodeAll (f : Json → Except String α) : List Json → Except String (List α)
  | [] => .ok []
  | j :: rest =>
    match f j with
    | .ok a =>
      match decodeAll f rest with
      | .ok as => .ok (a :: as)
      | .error e => .error e
    | .error e => .error e

/-- Decoder for a `Vec<String>` field. -/
def decodeStringList : Json → Except String (List String)
  | .arr xs => decodeAll decodeString xs
  | _ => .error "invalid type: expected a sequence"

/-- A required struct field: missing is a decode error. -/
def reqField (fs : List (String × Json)) (k : String) (f : Json → Except String α) :
    Except String α :=
  match fs.lookup k with
  | some v => f v
  | none => .error ("missing field " ++ k)

/-- A field with serde attribute `default` and type `Vec<String>`: a missing
field deserializes to the empty list, a present field must be a string array. -/
def optListField (fs : List (String × Json)) (k : String) : Except String (List String) :=
  match fs.lookup k with
  | some v => decodeStringList v
  | none => .ok []

/-- An `Option<String>` field: missing or `null` is `none`. -/
def optStringField (fs : List (String × Json)) (k : String) : Except String (Option String) :=
  match fs.lookup k with
  | none => .ok none
  | some .null => .ok none
  | some (.str s) => .ok (some s)
  | some _ => .error ("invalid type for field " ++ k)

/-- An `Option<i64>` field: missing or `null` is `none`. -/
def optIntField (fs : List (String × Json)) (k : String) : Except String (Option Int) :=
  match fs.lookup k with
  | none => .ok none
  | some .null => .ok none
  | some (.num q) => if q.den = 1 then .ok (some q.num) else .error ("invalid type for field " ++ k)
  | some _ => .error ("invalid type for field " ++ k)

namespace StockWs

/-- The `Subscribe` struct of stock_websocket.rs (field names as in the
source; the serde renames `dailyBars`/`updatedBars` appear in the wire
rendering below). -/
structure Subscribe where
  trades : List String := []
  quotes : List String := []
  bars : List String := []
  daily_bars : List String := []
  updated_bars : List String := []
  statuses : List String := []
  lulds : List String := []
  imbalances : List String := []

/-- Source `Subscribe::new`, which is `Self::default()`: all channels empty. -/
def Subscribe.new : Subscribe := {}

/-- Source `Subscribe::action_json`: the outbound subscribe command rendered
with the serde_json `json!` macro — every channel key is included
unconditionally, with the channel's symbol list serialized as an array. -/
def Subscribe.action_json (s : Subscribe) : Json :=
  Json.obj
    [ ("action", Json.str "subscribe")
    , ("trades", strArr s.trades)
    , ("quotes", strArr s.quotes)
    , ("bars", strArr s.bars)
    , ("dailyBars", strArr s.daily_bars)
    , ("updatedBars", strArr s.updated_bars)
    , ("statuses", strArr s.statuses)
    , ("lulds", strArr s.lulds)
    , ("imbalances", strArr s.imbalances)
    ]

/-- The `SubscriptionAck` struct of stock_websocket.rs: every field has
serde attribute `default`. -/
structure SubscriptionAck where
  trades : List String
  quotes : List String
  bars : List String
  daily_bars : List String
  updated_bars : List String
  statuses : List String
  lulds : List String
  imbalances : List String
  corrections : List String
  cancel_errors : List String
deriving DecidableEq

/-- Serde-derived decode of `SubscriptionAck` from an object's fields. -/
def SubscriptionAck.fromFields (fs : List (String × Json)) : Except String SubscriptionAck := do
  let trades ← optListField fs "trades"
  let quotes ← optListField fs "quotes"
  let bars ← optListField fs "bars"
  let daily_bars ← optListField fs "dailyBars"
  let updated_bars ← optListField fs "updatedBars"
  let statuses ← optListField fs "statuses"
  let lulds ← optListField fs "lulds"
  let imbalances ← optListField fs "imbalances"
  let corrections ← optListField fs "corrections"
  let cancel_errors ← optListField fs "cancelErrors"
  return { trades, quotes, bars, daily_bars, updated_bars, statuses, lulds,
           imbalances, corrections, cancel_errors }

/-- Serde-derived decode of `SubscriptionAck` from a JSON value. -/
def SubscriptionAck.fromJson : Json → Except String SubscriptionAck
  | .obj fs => SubscriptionAck.fromFields fs
  | _ => .error "invalid type: expected a map"

/-- The `SuccessMsg` struct of stock_websocket.rs. -/
structure SuccessMsg where
  msg : Option String
  code : Option Int
deriving DecidableEq

def SuccessMsg.fromFields (fs : List (String × Json)) : Except String SuccessMsg := do
  let msg ← optStringField fs "msg"
  let code ← optIntField fs "code"
  return { msg, code }

/-- The `ErrorMsg` struct of stock_websocket.rs. -/
structure ErrorMsg where
  msg : Option String
  code : Option Int
deriving DecidableEq

def ErrorMsg.fromFields (fs : List (String × Json)) : Except String ErrorMsg := do
  let msg ← optStringField fs "msg"
  let code ← optIntField fs "code"
  return { msg, code }

/-- The `Trade` struct of stock_websocket.rs (serde renames in brackets). -/
structure Trade where
  symbol : String
  trade_id : Int
  exchange : String
  price : ℚ
  size : Int
  conditions : List String
  timestamp : String
  tape : String
deriving DecidableEq

def Trade.fromFields (fs : List (String × Json)) : Except String Trade := do
  let symbol ← reqField fs "S" decodeString
  let trade_id ← reqField fs "i" decodeI64
  let exchange ← reqField fs "x" decodeString
  let price ← reqField fs "p" decodeF64
  let size ← reqField fs "s" decodeI64
  let conditions ← reqField fs "c" decodeStringList
  let timestamp ← reqField fs "t" decodeString
  let tape ← reqField fs "z" decodeString
  return { symbol, trade_id, exchange, price, size, conditions, timestamp, tape }

/-- The `Quote` struct of stock_websocket.rs. -/
structure Quote where
  symbol : String
  ask_exchange : String
  ask_price : ℚ
  ask_size : Int
  bid_exchange : String
  bid_price : ℚ
  bid_size : Int
  conditions : List String
  timestamp : String
  tape : String
deriving DecidableEq

def Quote.fromFields (fs : List (String × Json)) : Except String Quote := do
  let symbol ← reqField fs "S" decodeString
  let ask_exchange ← reqField fs "ax" decodeString
  let ask_price ← reqField fs "ap" decodeF64
  let ask_size ← reqField fs "as" decodeI64
  let bid_exchange ← reqField fs "bx" decodeString
  let bid_price ← reqField fs "bp" decodeF64
  let bid_size ← reqField fs "bs" decodeI64
  let conditions ← reqField fs "c" decodeStringList
  let timestamp ← reqField fs "t" decodeString
  let tape ← reqField fs "z" decodeString
  return { symbol, ask_exchange, ask_price, ask_size, bid_exchange, bid_price,
           bid_size, conditions, timestamp, tape }

/-- The `Bar` struct of stock_websocket.rs. -/
structure Bar where
  symbol : String
  open_price : ℚ
  high : ℚ
  low : ℚ
  close : ℚ
  volume : Int
  volume_weighted_avg_price : ℚ
  number_of_trades : Int
  timestamp : String
deriving DecidableEq

def Bar.fromFields (fs : List (String × Json)) : Except String Bar := do
  let symbol ← reqField fs "S" decodeString
  let open_price ← reqField fs "o" decodeF64
  let high ← reqField fs "h" decodeF64
  let low ← reqField fs "l" decodeF64
  let close ← reqField fs "c" decodeF64
  let volume ← reqField fs "v" decodeI64
  let volume_weighted_avg_price ← reqField fs "vw" decodeF64
  let number_of_trades ← reqField fs "n" decodeI64
  let timestamp ← reqField fs "t" decodeString
  return { symbol, open_price, high, low, close, volume,
           volume_weighted_avg_price, number_of_trades, timestamp }

/-- The `TradeCorrections` struct of stock_websocket.rs. -/
structure TradeCorrections where
  symbol : String
  exchange_code : String
  original_trade_id : String
  original_trade_price : ℚ
  original_trade_size : Int
  original_trade_conditions : List String
  corrected_trade_id : String
  corrected_trade_price : ℚ
  corrected_trade_size : Int
  corrected_trade_conditions : List String
  timestamp : String
  tape : String
deriving DecidableEq

def TradeCorrections.fromFields (fs : List (String × Json)) : Except String TradeCorrections := do
  let symbol ← reqField fs "S" decodeString
  let exchange_code ← reqField fs "x" decodeString
  let original_trade_id ← reqField fs "oi" decodeString
  let original_trade_price ← reqField fs "op" decodeF64
  let original_trade_size ← reqField fs "os" decodeI64
  let original_trade_conditions ← reqField fs "oc" decodeStringList
  let corrected_trade_id ← reqField fs "ci" decodeString
  let corrected_trade_price ← reqField fs "cp" decodeF64
  let corrected_trade_size ← reqField fs "cs" decodeI64
  let corrected_trade_conditions ← reqField fs "cc" decodeStringList
  let timestamp ← reqField fs "t" decodeString
  let tape ← reqField fs "z" decodeString
  return { symbol, exchange_code, original_trade_id, original_trade_price,
           original_trade_size, original_trade_conditions, corrected_trade_id,
           corrected_trade_price, corrected_trade_size,
           corrected_trade_conditions, timestamp, tape }

/-- The `TradeCancelsAndErrors` struct of stock_websocket.rs (the last field
is really named `ape` in the source). -/
structure TradeCancelsAndErrors where
  symbol : String
  trade_id : Int
  trade_exchange : String
  trade_price : ℚ
  trade_size : Int
  action : String
  timestamp : String
  ape : String
deriving DecidableEq

def TradeCancelsAndErrors.fromFields (fs : List (String × Json)) :
    Except String TradeCancelsAndErrors := do
  let symbol ← reqField fs "S" decodeString
  let trade_id ← reqField fs "i" decodeI64
  let trade_exchange ← reqField fs "x" decodeString
  let trade_price ← reqField fs "p" decodeF64
  let trade_size ← reqField fs "s" decodeI64
  let action ← reqField fs "a" decodeString
  let timestamp ← reqField fs "t" decodeString
  let ape ← reqField fs "z" decodeString
  return { symbol, trade_id, trade_exchange, trade_price, trade_size, action,
           timestamp, ape }

/-- The `LimitUpLimitDown` struct of stock_websocket.rs. -/
structure LimitUpLimitDown where
  symbol : String
  limit_up_price : ℚ
  limit_down_price : ℚ
  indicator : String
  timestamp : String
  tape : String
deriving DecidableEq

def LimitUpLimitDown.fromFields (fs : List (String × Json)) : Except String LimitUpLimitDown := do
  let symbol ← reqField fs "S" decodeString
  let limit_up_price ← reqField fs "u" decodeF64
  let limit_down_price ← reqField fs "d" decodeF64
  let indicator ← reqField fs "i" decodeString
  let timestamp ← reqField fs "t" decodeString
  let tape ← reqField fs "z" decodeString
  return { symbol, limit_up_price, limit_down_price, indicator, timestamp, tape }

/-- The `TradingStatus` struct of stock_websocket.rs. -/
structure TradingStatus where
  symbol : String
  status_code : String
  status_message : String
  reason_code : String
  reason_message : String
  timestamp : String
  tape : String
deriving DecidableEq

def TradingStatus.fromFields (fs : List (String × Json)) : Except String TradingStatus := do
  let symbol ← reqField fs "S" decodeString
  let status_code ← reqField fs "sc" decodeString
  let status_message ← reqField fs "sm" decodeString
  let reason_code ← reqField fs "rc" decodeString
  let reason_message ← reqField fs "rm" decodeString
  let timestamp ← reqField fs "t" decodeString
  let tape ← reqField fs "z" decodeString
  return { symbol, status_code, status_message, reason_code, reason_message,
           timestamp, tape }

/-- The `OrderImbalances` struct of stock_websocket.rs. -/
structure OrderImbalances where
  symbol : String
  price : ℚ
  timestamp : String
  tape : String
deriving DecidableEq

def OrderImbalances.fromFields (fs : List (String × Json)) : Except String OrderImbalances := do
  let symbol ← reqField fs "S" decodeString
  let price ← reqField fs "p" decodeF64
  let timestamp ← reqField fs "t" decodeString
  let tape ← reqField fs "z" decodeString
  return { symbol, price, timestamp, tape }

/-- The `StockMsg` tagged union of stock_websocket.rs (serde internally
tagged by field `T`). -/
inductive StockMsg where
  | Trade (t : Trade)
  | Quote (q : Quote)
  | Bar (b : Bar)
  | DailyBar (b : Bar)
  | UpdatedBar (b : Bar)
  | TradeCorrections (c : TradeCorrections)
  | TradeCancelsAndErrors (x : TradeCancelsAndErrors)
  | LimitUpLimitDown (l : LimitUpLimitDown)
  | TradingStatus (s : TradingStatus)
  | OrderImbalances (o : OrderImbalances)
  | Subscription (a : SubscriptionAck)
  | Success (s : SuccessMsg)
  | Error (e : ErrorMsg)
deriving DecidableEq

/-- Serde decode of one internally tagged `StockMsg` object: the `T` field
selects the variant; an unrecognized tag is a decode error. -/
def StockMsg.fromJson : Json → Except String StockMsg
  | .obj fs =>
    match fs.lookup "T" with
    | some (.str "t") => (Trade.fromFields fs).map StockMsg.Trade
    | some (.str "q") => (Quote.fromFields fs).map StockMsg.Quote
    | some (.str "b") => (Bar.fromFields fs).map StockMsg.Bar
    | some (.str "d") => (Bar.fromFields fs).map StockMsg.DailyBar
    | some (.str "u") => (Bar.fromFields fs).map StockMsg.UpdatedBar
    | some (.str "c") => (TradeCorrections.fromFields fs).map StockMsg.TradeCorrections
    | some (.str "x") => (TradeCancelsAndErrors.fromFields fs).map StockMsg.TradeCancelsAndErrors
    | some (.str "l") => (LimitUpLimitDown.fromFields fs).map StockMsg.LimitUpLimitDown
    | some (.str "s") => (TradingStatus.fromFields fs).map StockMsg.TradingStatus
    | some (.str "i") => (OrderImbalances.fromFields fs).map StockMsg.OrderImbalances
    | some (.str "subscription") => (SubscriptionAck.fromFields fs).map StockMsg.Subscription
    | some (.str "success") => (SuccessMsg.fromFields fs).map StockMsg.Success
    | some (.str "error") => (ErrorMsg.fromFields fs).map StockMsg.Error
    | some (.str tag) => .error ("unknown variant " ++ tag)
    | some _ => .error "invalid type for tag T"
    | none => .error "missing field T"
  | _ => .error "invalid type: expected a map"

/-- Model of `serde_json::from_str::<Vec<StockMsg>>` at the JSON-value level:
the frame must be an array and every element must decode, otherwise the
whole frame fails as one `Result`. -/
def decodeVec : Json → Except String (List StockMsg)
  | .arr xs => decodeAll StockMsg.fromJson xs
  | _ => .error "invalid type: expected a sequence"

/-- One item of the output channel: `Result<StockMsg, anyhow::Error>`.
Error payloads keep the structure of the `anyhow!` messages built in
`stream_stock_data` (the format-string kind plus its interpolated data). -/
inductive StreamErr where
  | connect (e : String)
  | sendAuth (e : String)
  | handshake (code : Option Int) (msg : Option String)
  | decodeAuth (e : String)
  | readAuth (e : String)
  | sendSubscribe (e : String)
  | decode (e : String)
  | read (e : String)
deriving DecidableEq

/-- An item sent into the `mpsc` output channel by the background task. -/
inductive OutputItem where
  | ok (m : StockMsg)
  | err (e : StreamErr)
deriving DecidableEq

/-- Whether an output item is a successfully decoded message. -/
def OutputItem.isOk : OutputItem → Bool
  | .ok _ => true
  | .err _ => false

/-- One result of `read.next()` on the socket, at the JSON-value level:
a text frame (already parsed to a JSON value), a close frame, any other
frame kind (ping/pong/binary), or a read error. -/
inductive WsFrame where
  | text (j : Json)
  | close
  | other
  | readErr (e : String)

/-- The match arms of the source that recognize a handshake Success:
a `Success` whose `msg` is `connected` or `authenticated` (any `code`). -/
def StockMsg.isHandshakeSuccess : StockMsg → Bool
  | .Success s => s.msg = some "connected" || s.msg = some "authenticated"
  | _ => false

/-- Whether a message is the `Error` variant. -/
def StockMsg.isErrorMsg : StockMsg → Bool
  | .Error _ => true
  | _ => false

/-- Step 2 inner `for msg in batch` loop of `stream_stock_data`, processing
one decoded batch while waiting for authentication.  Returns the items sent
to the channel and the value of the mutable `authed` flag when the `for`
ends (by exhaustion or by the `break` in the `Error` arm, which also resets
`authed` to false and abandons the rest of the batch).  The source's guarded
match arms `Success(s) if matches!(s.msg.as_deref(), Some(..))` are mirrored
as equality tests on `msg`; a `Success` with any other text falls through to
the wildcard arm and is forwarded, exactly as in the source. -/
def processAuthBatch (authed : Bool) : List StockMsg → List OutputItem × Bool
  | [] => ([], authed)
  | m :: rest =>
    match m with
    | .Success s =>
      if s.msg = some "connected" then processAuthBatch authed rest
      else if s.msg = some "authenticated" then processAuthBatch true rest
      else
        let r := processAuthBatch authed rest
        (.ok m :: r.1, r.2)
    | .Error e => ([.err (.handshake e.code e.msg)], false)
    | _ =>
      let r := processAuthBatch authed rest
      (.ok m :: r.1, r.2)

/-- Result of the Step 2 `while let Some(incoming) = read.next()` loop:
items sent, the final `authed` flag, and the socket frames left unread when
the loop broke (consumed afterwards by the Step 4 loop when authenticated). -/
structure AuthResult where
  outputs : List OutputItem
  authed : Bool
  rest : List WsFrame

/-- Step 2 of `stream_stock_data`: read frames until `authenticated` is seen
(break with success), or a decode error / read error / close frame breaks
the loop, or the socket ends. -/
def authLoop (authed : Bool) : List WsFrame → AuthResult
  | [] => ⟨[], authed, []⟩
  | .text j :: rest =>
    match decodeVec j with
    | .ok batch =>
      let r := processAuthBatch authed batch
      if r.2 then ⟨r.1, true, rest⟩
      else
        let r2 := authLoop r.2 rest
        ⟨r.1 ++ r2.outputs, r2.authed, r2.rest⟩
    | .error e => ⟨[.err (.decodeAuth e)], authed, rest⟩
  | .close :: rest => ⟨[], authed, rest⟩
  | .other :: rest => authLoop authed rest
  | .readErr e :: rest => ⟨[.err (.readAuth e)], authed, rest⟩

/-- Step 4 of `stream_stock_data` (the main stream loop): every non-empty
text frame is decoded as a batch; a good batch forwards every message in
array order, a bad one sends a single decode-error item and continues;
non-text frames are ignored; a close frame or read error ends the loop. -/
def streamLoop : List WsFrame → List OutputItem
  | [] => []
  | .text j :: rest =>
    match decodeVec j with
    | .ok batch => batch.map OutputItem.ok ++ streamLoop rest
    | .error e => .err (.decode e) :: streamLoop rest
  | .close :: _ => []
  | .other :: rest => streamLoop rest
  | .readErr e :: _ => [.err (.read e)]

/-- The backoff computation of the source, u64 arithmetic:
`(1u64 << attempt.min(6)) * 250` milliseconds. -/
def backoffMs (attempt : ℕ) : ℕ :=
  ((1 <<< min attempt 6) * 250) % 2 ^ 64

/-- How one iteration of the outer `loop` of the spawned task ends.  The
Rust body contains no `break` or `return`: every path either hits a
`continue` or falls through to the end of the `loop` block, so only
`continueLoop` is ever produced; `exitTask` exists to state that fact. -/
inductive LoopControl where
  | continueLoop
  | exitTask
deriving DecidableEq

/-- What the environment does during one iteration once the WebSocket
connection has been established: whether writing the auth command fails,
whether writing the subscribe command fails, and the frames the socket
yields (consumed first by the auth loop, then by the stream loop). -/
structure ConnScript where
  authSendErr : Option String
  subSendErr : Option String
  frames : List WsFrame

/-- The environment's behavior for one iteration of the outer `loop`:
either `connect_async` fails, or it succeeds with the given script. -/
inductive IterEnv where
  | connectFail (e : String)
  | connectOk (c : ConnScript)

/-- Observable result of one iteration of the outer `loop`: the items sent
into the channel and actually delivered (with the receiver dropped, `tx.send`
fails and the `let _ =` discards the error, so nothing is delivered), the
value of the `attempt` counter at the end of the iteration, the backoff
slept at the end of the iteration (if any), and how the iteration ended. -/
structure IterResult where
  outputs : List OutputItem
  attempt : ℕ
  slept : Option ℕ
  control : LoopControl
deriving DecidableEq

/-- Items actually delivered to the channel: with the receiver dropped every
`tx.send` fails and its result is discarded by `let _ =`. -/
def sendAll (rxClosed : Bool) (outs : List OutputItem) : List OutputItem :=
  if rxClosed then [] else outs

/-- One iteration of the outer `loop` of the task spawned by
`stream_stock_data` (identical in `stream_crypto_data`), following the
source step by step: connect (failure sends an error item, increments
`attempt`, sleeps the backoff and continues; success resets `attempt` to 0);
send auth (failure sends an error item and continues — with neither an
increment nor a sleep); the Step 2 auth loop; if not authenticated,
increment and sleep; send subscribe (failure sends an error item,
increments and sleeps); the Step 4 stream loop; then increment and sleep. -/
def loopIter (rxClosed : Bool) (attempt : ℕ) (env : IterEnv) : IterResult :=
  match env with
  | .connectFail e =>
    let attempt1 := attempt + 1
    { outputs := sendAll rxClosed [.err (.connect e)]
      attempt := attempt1
      slept := some (backoffMs attempt1)
      control := .continueLoop }
  | .connectOk c =>
    let attempt0 := 0
    match c.authSendErr with
    | some e =>
      { outputs := sendAll rxClosed [.err (.sendAuth e)]
        attempt := attempt0
        slept := none
        control := .continueLoop }
    | none =>
      let ar := authLoop false c.frames
      if ar.authed = false then
        let attempt1 := attempt0 + 1
        { outputs := sendAll rxClosed ar.outputs
          attempt := attempt1
          slept := some (backoffMs attempt1)
          control := .continueLoop }
      else
        match c.subSendErr with
        | some e =>
          let attempt1 := attempt0 + 1
          { outputs := sendAll rxClosed (ar.outputs ++ [.err (.sendSubscribe e)])
            attempt := attempt1
            slept := some (backoffMs attempt1)
            control := .continueLoop }
        | none =>
          let souts := streamLoop ar.rest
          let attempt1 := attempt0 + 1
          { outputs := sendAll rxClosed (ar.outputs ++ souts)
            attempt := attempt1
            slept := some (backoffMs attempt1)
            control := .continueLoop }

/-- The sequence of backoff sleeps performed across consecutive iterations
of the outer `loop`, threading the `attempt` counter. -/
def runSleeps (rxClosed : Bool) : ℕ → List IterEnv → List (Option ℕ)
  | _, [] => []
  | attempt, env :: rest =>
    let r := loopIter rxClosed attempt env
    r.slept :: runSleeps rxClosed r.attempt rest

end StockWs

namespace CryptoWs

/-- The `NumF64` union of crypto_websocket.rs: a numeric wire field can be
an i64, an f64 or a string (serde untagged).  The f64 payload is modelled
with Lean's `Float`, which is IEEE binary64 like Rust's f64. -/
inductive NumF64 where
  | I (i : Int)
  | F (f : Float)
  | S (s : String)

/-- Serde untagged decode of `NumF64` from a JSON value: an integral number
becomes `I`, any other number becomes `F` (through the transport's
decimal-to-binary conversion `qToFloat`), a string becomes `S`, and anything
else matches no variant. -/
def NumF64.fromJson (qToFloat : ℚ → Float) : Json → Except String NumF64
  | .num q => if q.den = 1 then .ok (.I q.num) else .ok (.F (qToFloat q))
  | .str s => .ok (.S s)
  | _ => .error "data did not match any variant of untagged enum NumF64"

/-- The `From<NumF64> for f64` impl of crypto_websocket.rs: an integer is
cast to f64, a float passes through, and a string is parsed as f64 with
`unwrap_or(0.0)`.  The standard library's `str::parse::<f64>` is the
`parse` parameter (it is not code of this repository). -/
def NumF64.toF64 (parse : String → Option Float) : NumF64 → Float
  | .I i => Float.ofInt i
  | .F f => f
  | .S s => (parse s).getD 0.0

/-- The `Subscribe` struct of crypto_websocket.rs. -/
structure Subscribe where
  trades : List String := []
  quotes : List String := []
  bars : List String := []
  daily_bars : List String := []
  updated_bars : List String := []
  orderbooks : List String := []

/-- Source crypto `Subscribe::action_json`: every channel key is included
unconditionally, empty lists rendering as empty arrays. -/
def Subscribe.action_json (s : Subscribe) : Json :=
  Json.obj
    [ ("action", Json.str "subscribe")
    , ("trades", strArr s.trades)
    , ("quotes", strArr s.quotes)
    , ("bars", strArr s.bars)
    , ("dailyBars", strArr s.daily_bars)
    , ("updatedBars", strArr s.updated_bars)
    , ("orderbooks", strArr s.orderbooks)
    ]

/-- The `SubscriptionAck` struct of crypto_websocket.rs: every field has
serde attribute `default`. -/
structure SubscriptionAck where
  trades : List String
  quotes : List String
  bars : List String
  daily_bars : List String
  updated_bars : List String
  orderbooks : List String
deriving DecidableEq

/-- Serde-derived decode of the crypto `SubscriptionAck` from an object's
fields. -/
def SubscriptionAck.fromFields (fs : List (String × Json)) : Except String SubscriptionAck := do
  let trades ← optListField fs "trades"
  let quotes ← optListField fs "quotes"
  let bars ← optListField fs "bars"
  let daily_bars ← optListField fs "dailyBars"
  let updated_bars ← optListField fs "updatedBars"
  let orderbooks ← optListField fs "orderbooks"
  return { trades, quotes, bars, daily_bars, updated_bars, orderbooks }

/-- Serde-derived decode of the crypto `SubscriptionAck` from a JSON value. -/
def SubscriptionAck.fromJson : Json → Except String SubscriptionAck
  | .obj fs => SubscriptionAck.fromFields fs
  | _ => .error "invalid type: expected a map"

end CryptoWs

namespace StockWs

/-- A well-formed trade object as it appears on the wire. -/
def tradeJsonA : Json :=
  Json.obj
    [ ("T", Json.str "t"), ("S", Json.str "AAPL"), ("i", Json.num 1)
    , ("x", Json.str "V"), ("p", Json.num 100), ("s", Json.num 10)
    , ("c", Json.arr [Json.str "@"]), ("t", Json.str "2024-01-01T00:00:00Z")
    , ("z", Json.str "C") ]

/-- The decoded form of `tradeJsonA`. -/
def tradeA : Trade :=
  { symbol := "AAPL", trade_id := 1, exchange := "V", price := 100, size := 10
  , conditions := ["@"], timestamp := "2024-01-01T00:00:00Z", tape := "C" }

/-- An object whose discriminant tag matches no `StockMsg` variant. -/
def unknownTagJson : Json :=
  Json.obj [("T", Json.str "zz"), ("S", Json.str "AAPL")]

/-- A success message with the given text, as it appears on the wire. -/
def successJson (s : String) : Json :=
  Json.obj [("T", Json.str "success"), ("msg", Json.str s)]

/-- The decoded form of `successJson s`. -/
def successMsg (s : String) : StockMsg :=
  StockMsg.Success { msg := some s, code := none }

/-- A server `Error` message as decoded during the handshake. -/
def handshakeErrMsg : StockMsg :=
  StockMsg.Error { msg := some "auth failed", code := some 402 }

/-- The successfully decoded messages among a list of channel items, in
order. -/
def okMessages : List OutputItem → List StockMsg :=
  List.filterMap (fun o => match o with | .ok m => some m | .err _ => none)

end StockWs

end Rpaca

open Rpaca Rpaca.StockWs

/-- The u64 backoff expression of the source never overflows: it equals
250 milliseconds times 2 to the capped attempt count. -/
theorem backoffMs_eq (n : ℕ) : backoffMs n = 250 * 2 ^ min n 6 := by
  have h6 : min n 6 ≤ 6 := min_le_right _ _
  have hle : 2 ^ min n 6 ≤ 2 ^ 6 := Nat.pow_le_pow_right (by norm_num) h6
  have hlt : (1 <<< min n 6) * 250 < 2 ^ 64 := by
    rw [Nat.shiftLeft_eq, one_mul]
    have h64 : (2 : ℕ) ^ 64 = 18446744073709551616 := by norm_num
    have : (2 : ℕ) ^ 6 = 64 := by norm_num
    omega
  unfold backoffMs
  rw [Nat.mod_eq_of_lt hlt, Nat.shiftLeft_eq, one_mul, Nat.mul_comm]

/-- The sequence of sleeps across any run of consecutive connect failures:
the n-th failure (1-based, starting from attempt counter `a`) sleeps
`backoffMs (a + n)` milliseconds. -/
theorem runSleeps_connectFail (rc : Bool) :
    ∀ (errs : List String) (a : ℕ),
      runSleeps rc a (errs.map IterEnv.connectFail) =
        (List.range' (a + 1) errs.length).map (fun n => some (backoffMs n))
  | [], _ => rfl
  | e :: errs, a => by
    have ih := runSleeps_connectFail rc errs (a + 1)
    simp only [List.map_cons, runSleeps, loopIter, List.length_cons, List.range']
    exact congrArg _ ih

/-- C1, counterexample: for consecutive reconnect failures (here: connect
failures, which are the only failure kind whose backoff escalates — see C2)
the first computed delay is 500 ms, not the 250 ms stated by the claim: the
source increments `attempt` before computing `(1u64 << attempt.min(6)) * 250`,
so the whole claimed sequence 250,500,...,16000,16000 is off by one doubling. -/
theorem c1_counterexample :
    runSleeps false 0 (List.replicate 8 (IterEnv.connectFail "e")) =
      [some 500, some 1000, some 2000, some 4000, some 8000,
       some 16000, some 16000, some 16000] ∧
    (some 500 : Option ℕ) ≠ some 250 :=
  ⟨by decide, by decide⟩

/-- C1, amended: for consecutive connect failures numbered 1..k the delay
slept before retry number n is `250 ms * 2 ^ min(n, 6)`, i.e. the sequence
500, 1000, 2000, 4000, 8000, 16000, 16000, ... ms, capping at 16 s from the
sixth failure onward.  (`List.range' 1 k` is the list `[1, ..., k]`.) -/
theorem c1_amended (errs : List String) :
    runSleeps false 0 (errs.map IterEnv.connectFail) =
      (List.range' 1 errs.length).map (fun n => some (250 * 2 ^ min n 6)) := by
  rw [runSleeps_connectFail]
  simp only [backoffMs_eq]

/-- C2, counterexample: the attempt counter is reset to 0 by a successful
connect, before Streaming is ever reached.  Starting from attempt counter 3,
an iteration whose connect succeeds but whose socket ends before
authentication leaves the counter at 1 (reset to 0, then incremented once)
and sleeps 500 ms — the claim (no reset before Streaming) predicts counter 4. -/
theorem c2_counterexample :
    (loopIter false 3 (IterEnv.connectOk ⟨none, none, []⟩)).attempt = 1 ∧
    (loopIter false 3 (IterEnv.connectOk ⟨none, none, []⟩)).slept = some 500 ∧
    (1 : ℕ) ≠ 3 + 1 :=
  ⟨by decide, by decide, by decide⟩

/-- C2, amended: the attempt counter is reset to 0 on every successful
connect — before authentication, not on the transition into Streaming — so
whatever its prior value, an iteration whose connect succeeds ends with the
counter at 1 (0 when the auth send fails, which skips the increment), and
the next failure's backoff delay is the base 500 ms. -/
theorem c2_amended (rc : Bool) (a : ℕ) (c : ConnScript) :
    (loopIter rc a (IterEnv.connectOk c)).attempt =
      if c.authSendErr.isSome then 0 else 1 := by
  cases hc : c.authSendErr with
  | some e => simp [loopIter, hc]
  | none =>
    simp only [loopIter, hc, Option.isSome_none, Bool.false_eq_true, if_false]
    by_cases hA : (authLoop false c.frames).authed = false
    · simp [hA]
    · simp only [hA, if_false]
      cases hs : c.subSendErr <;> simp [hs]

/-- C3, counterexample: the rendered outbound subscribe command does not
omit empty channels.  For the default (all-empty) stock descriptor the
command still carries the key `trades`, bound to an empty array. -/
theorem c3_counterexample :
    Json.getField (Subscribe.new.action_json) "trades" = some (Json.arr []) ∧
    Subscribe.new.trades = [] :=
  ⟨rfl, rfl⟩

/-- C3, amended: the rendered outbound subscribe command always includes
`action: subscribe` and every recognized channel key of the descriptor,
each bound to the channel's symbol array — empty channels render as empty
arrays rather than being omitted.  (The `skip_serializing_if` attributes on
the `Subscribe` struct belong to its derived `Serialize` impl, which is not
what `action_json` — the function that produces the wire payload — uses.)
This holds for the stock and for the crypto descriptor alike. -/
theorem c3_amended :
    (∀ s : Subscribe,
      Json.getField s.action_json "action" = some (Json.str "subscribe") ∧
      Json.getField s.action_json "trades" = some (strArr s.trades) ∧
      Json.getField s.action_json "quotes" = some (strArr s.quotes) ∧
      Json.getField s.action_json "bars" = some (strArr s.bars) ∧
      Json.getField s.action_json "dailyBars" = some (strArr s.daily_bars) ∧
      Json.getField s.action_json "updatedBars" = some (strArr s.updated_bars) ∧
      Json.getField s.action_json "statuses" = some (strArr s.statuses) ∧
      Json.getField s.action_json "lulds" = some (strArr s.lulds) ∧
      Json.getField s.action_json "imbalances" = some (strArr s.imbalances)) ∧
    (∀ s : Rpaca.CryptoWs.Subscribe,
      Json.getField s.action_json "action" = some (Json.str "subscribe") ∧
      Json.getField s.action_json "trades" = some (strArr s.trades) ∧
      Json.getField s.action_json "quotes" = some (strArr s.quotes) ∧
      Json.getField s.action_json "bars" = some (strArr s.bars) ∧
      Json.getField s.action_json "dailyBars" = some (strArr s.daily_bars) ∧
      Json.getField s.action_json "updatedBars" = some (strArr s.updated_bars) ∧
      Json.getField s.action_json "orderbooks" = some (strArr s.orderbooks)) :=
  ⟨fun _ => ⟨rfl, rfl, rfl, rfl, rfl, rfl, rfl, rfl, rfl⟩,
   fun _ => ⟨rfl, rfl, rfl, rfl, rfl, rfl, rfl⟩⟩

/-- Element-wise decoding fails as soon as any element of the list fails. -/
theorem decodeAll_not_isOk {α : Type} (f : Json → Except String α) :
    ∀ (xs : List Json) (j : Json), j ∈ xs → (f j).isOk = false →
      (decodeAll f xs).isOk = false
  | x :: rest, j, hmem, hbad => by
    rcases List.mem_cons.mp hmem with h | h
    · subst h
      cases hx : f j with
      | ok a => rw [hx] at hbad; simp [Except.isOk, Except.toBool] at hbad
      | error e => simp [decodeAll, hx, Except.isOk, Except.toBool]
    · cases hx : f x with
      | ok a =>
        have ih := decodeAll_not_isOk f rest j h hbad
        cases hr : decodeAll f rest with
        | ok as => rw [hr] at ih; simp [Except.isOk, Except.toBool] at ih
        | error e => simp [decodeAll, hx, hr, Except.isOk, Except.toBool]
      | error e => simp [decodeAll, hx, Except.isOk, Except.toBool]

/-- C4, counterexample: a frame holding one well-formed trade object and one
object with an unrecognized tag.  The trade alone decodes fine, but the
batch decode `serde_json::from_str::<Vec<StockMsg>>` fails the whole frame,
and the stream loop delivers no message from it — the well-formed sibling is
lost, contrary to the claim. -/
theorem c4_counterexample :
    StockMsg.fromJson tradeJsonA = .ok (.Trade tradeA) ∧
    (StockMsg.fromJson unknownTagJson).isOk = false ∧
    ¬ (OutputItem.ok (.Trade tradeA) ∈
        streamLoop [WsFrame.text (Json.arr [tradeJsonA, unknownTagJson])]) :=
  ⟨by decide, by decide, by decide⟩

/-- C4, amended: batch decode is atomic.  If any element of an inbound
frame's array fails to decode — an unrecognized tag included — the whole
frame fails as one `Result`: the stream loop emits exactly one error item
for the frame and delivers none of its messages, well-formed siblings
included. -/
theorem c4_amended (xs : List Json) (j : Json) (hmem : j ∈ xs)
    (hbad : (StockMsg.fromJson j).isOk = false) :
    (decodeVec (Json.arr xs)).isOk = false ∧
    (streamLoop [WsFrame.text (Json.arr xs)]).length = 1 ∧
    ∀ o ∈ streamLoop [WsFrame.text (Json.arr xs)], o.isOk = false := by
  have h := decodeAll_not_isOk StockMsg.fromJson xs j hmem hbad
  have hd : (decodeVec (Json.arr xs)).isOk = false := by
    simpa [decodeVec] using h
  obtain ⟨e, he⟩ : ∃ e, decodeVec (Json.arr xs) = .error e := by
    cases hx : decodeVec (Json.arr xs) with
    | ok a => rw [hx] at hd; simp [Except.isOk, Except.toBool] at hd
    | error e => exact ⟨e, rfl⟩
  refine ⟨hd, ?_, ?_⟩
  · simp [streamLoop, he]
  · simp [streamLoop, he, OutputItem.isOk]

/-- C4, witness for the amended theorem at a concrete frame. -/
theorem c4_witness :
    (decodeVec (Json.arr [tradeJsonA, unknownTagJson])).isOk = false ∧
    (streamLoop [WsFrame.text (Json.arr [tradeJsonA, unknownTagJson])]).length = 1 ∧
    ∀ o ∈ streamLoop [WsFrame.text (Json.arr [tradeJsonA, unknownTagJson])],
      o.isOk = false :=
  c4_amended [tradeJsonA, unknownTagJson] unknownTagJson
    (List.mem_cons_of_mem _ (List.mem_cons_self _ _)) (by decide)

/-- C5, counterexample: with the receiver dropped (`rxClosed = true`), an
iteration whose connection ends still continues the loop — and sleeps the
backoff on its way to reconnecting — rather than exiting the task. -/
theorem c5_counterexample :
    (loopIter true 0 (IterEnv.connectOk ⟨none, none, [WsFrame.close]⟩)).control =
      LoopControl.continueLoop ∧
    (loopIter true 0 (IterEnv.connectOk ⟨none, none, [WsFrame.close]⟩)).slept = some 500 ∧
    LoopControl.continueLoop ≠ LoopControl.exitTask :=
  ⟨by decide, by decide, by decide⟩

/-- C5, amended: the background task never exits.  The body of the spawned
task's outer `loop` contains no `break` or `return`: every send result is
discarded with `let _ =`, so no iteration — whatever the environment does
and whether or not a receiver remains — ends in anything but continuing the
loop.  Dropping the consumer silences the outputs but does not stop the
producer. -/
theorem c5_amended (rc : Bool) (a : ℕ) (env : IterEnv) :
    (loopIter rc a env).control = LoopControl.continueLoop := by
  cases env with
  | connectFail e => rfl
  | connectOk c =>
    cases hc : c.authSendErr with
    | some e => simp [loopIter, hc]
    | none =>
      simp only [loopIter, hc]
      by_cases hA : (authLoop false c.frames).authed = false
      · simp [hA]
      · simp only [hA, if_false]
        cases hs : c.subSendErr <;> simp [hs]

/-- C5, witness for the amended theorem at a concrete environment with the
receiver dropped. -/
theorem c5_witness :
    (loopIter true 7 (IterEnv.connectFail "refused")).control =
      LoopControl.continueLoop :=
  c5_amended true 7 (IterEnv.connectFail "refused")

/-- C6, counterexample: the auth-send-failure path is a terminal failure
that retries immediately — it neither increments the attempt counter nor
sleeps any backoff, contrary to the claim that no failure path retries
without backoff. -/
theorem c6_counterexample :
    (loopIter false 0 (IterEnv.connectOk ⟨some "boom", none, []⟩)).slept = none ∧
    (loopIter false 0 (IterEnv.connectOk ⟨some "boom", none, []⟩)).attempt = 0 ∧
    (loopIter false 0 (IterEnv.connectOk ⟨some "boom", none, []⟩)).outputs =
      [OutputItem.err (StreamErr.sendAuth "boom")] :=
  ⟨by decide, by decide, by decide⟩

/-- C6, amended: every terminal failure of an iteration sleeps the computed
backoff before restarting — a connect failure sleeps `backoffMs (a+1)` for
prior counter `a`, and any post-connect failure (auth failure, subscribe-send
failure, streaming termination) sleeps `backoffMs 1` because the counter was
reset on connect — with one exception: a failure to send the auth command
itself restarts immediately, with no sleep and no increment. -/
theorem c6_amended (rc : Bool) (a : ℕ) (env : IterEnv) :
    (loopIter rc a env).slept =
      (match env with
       | .connectFail _ => some (backoffMs (a + 1))
       | .connectOk c => if c.authSendErr.isSome then none else some (backoffMs 1)) := by
  cases env with
  | connectFail e => rfl
  | connectOk c =>
    cases hc : c.authSendErr with
    | some e => simp [loopIter, hc]
    | none =>
      simp only [loopIter, hc, Option.isSome_none, Bool.false_eq_true, if_false]
      by_cases hA : (authLoop false c.frames).authed = false
      · simp [hA]
      · simp only [hA, if_false]
        cases hs : c.subSendErr <;> simp [hs]

/-- C7: within one connection, the main stream loop forwards every decoded
message to the output channel in frame-arrival order with in-frame array
order preserved — the outputs of a run over text frames that all decode are
exactly the concatenation of the decoded batches, in order. -/
theorem c7_ordering (js : List Json) (bss : List (List StockMsg))
    (h : List.Forall₂ (fun j b => decodeVec j = Except.ok b) js bss) :
    streamLoop (js.map WsFrame.text) = bss.flatten.map OutputItem.ok := by
  induction h with
  | nil => rfl
  | cons h1 h2 ih =>
    simp only [List.map_cons, streamLoop, h1, List.flatten_cons, List.map_append, ih]

/-- C7, witness: feeding frames `[A,B]` then `[C,D]` into one connection
yields consumer-observed order A, B, C, D exactly. -/
theorem c7_witness :
    streamLoop
      [WsFrame.text (Json.arr [successJson "A", successJson "B"]),
       WsFrame.text (Json.arr [successJson "C", successJson "D"])] =
      [OutputItem.ok (successMsg "A"), OutputItem.ok (successMsg "B"),
       OutputItem.ok (successMsg "C"), OutputItem.ok (successMsg "D")] := by
  have h := c7_ordering
    [Json.arr [successJson "A", successJson "B"],
     Json.arr [successJson "C", successJson "D"]]
    [[successMsg "A", successMsg "B"], [successMsg "C", successMsg "D"]]
    (List.Forall₂.cons (by decide) (List.Forall₂.cons (by decide) List.Forall₂.nil))
  simpa using h

/-- C8, counterexample: during the authenticating phase, a batch holding a
server Error followed by a Trade forwards only the handshake-error item; the
Trade — a decoded message that is neither a Success nor an Error — is
dropped because the Error arm breaks out of the batch loop, contrary to the
claim that every such message is forwarded. -/
theorem c8_counterexample :
    (processAuthBatch false [handshakeErrMsg, StockMsg.Trade tradeA]).1 =
      [OutputItem.err (StreamErr.handshake (some 402) (some "auth failed"))] ∧
    ¬ (OutputItem.ok (StockMsg.Trade tradeA) ∈
        (processAuthBatch false [handshakeErrMsg, StockMsg.Trade tradeA]).1) :=
  ⟨by decide, by decide⟩

/-- C8, amended: during the authenticating phase the messages forwarded to
the consumer from one decoded batch are exactly the messages preceding the
first Error of the batch, minus the `connected`/`authenticated` handshake
Successes, in order.  In particular every decoded message that is neither a
Success nor an Error and precedes any Error in its batch is forwarded in
order; messages after the first Error are dropped with the rest of the
batch. -/
theorem c8_amended (authed : Bool) (ms : List StockMsg) :
    okMessages (processAuthBatch authed ms).1 =
      (ms.takeWhile (fun m => !m.isErrorMsg)).filter
        (fun m => !m.isHandshakeSuccess) := by
  induction ms generalizing authed with
  | nil => rfl
  | cons m rest ih =>
    cases m with
    | Success s =>
      by_cases h1 : s.msg = some "connected"
      · simp [processAuthBatch, h1, StockMsg.isErrorMsg, StockMsg.isHandshakeSuccess,
              List.takeWhile_cons, List.filter_cons, ih]
      · by_cases h2 : s.msg = some "authenticated"
        · simp [processAuthBatch, h1, h2, StockMsg.isErrorMsg,
                StockMsg.isHandshakeSuccess, List.takeWhile_cons, List.filter_cons, ih]
        · simp only [processAuthBatch, h1, h2, if_false, okMessages,
                     StockMsg.isErrorMsg, StockMsg.isHandshakeSuccess,
                     List.takeWhile_cons, List.filter_cons, List.filterMap_cons]
          simp [h1, h2]
          exact ih authed
    | Error e =>
      simp [processAuthBatch, okMessages, StockMsg.isErrorMsg, List.takeWhile_cons,
            List.filterMap_cons]
    | Trade t =>
      exact congrArg (List.cons (StockMsg.Trade t)) (ih authed)
    | Quote q =>
      exact congrArg (List.cons (StockMsg.Quote q)) (ih authed)
    | Bar b =>
      exact congrArg (List.cons (StockMsg.Bar b)) (ih authed)
    | DailyBar b =>
      exact congrArg (List.cons (StockMsg.DailyBar b)) (ih authed)
    | UpdatedBar b =>
      exact congrArg (List.cons (StockMsg.UpdatedBar b)) (ih authed)
    | TradeCorrections c =>
      exact congrArg (List.cons (StockMsg.TradeCorrections c)) (ih authed)
    | TradeCancelsAndErrors x =>
      exact congrArg (List.cons (StockMsg.TradeCancelsAndErrors x)) (ih authed)
    | LimitUpLimitDown l =>
      exact congrArg (List.cons (StockMsg.LimitUpLimitDown l)) (ih authed)
    | TradingStatus ts =>
      exact congrArg (List.cons (StockMsg.TradingStatus ts)) (ih authed)
    | OrderImbalances o =>
      exact congrArg (List.cons (StockMsg.OrderImbalances o)) (ih authed)
    | Subscription a =>
      exact congrArg (List.cons (StockMsg.Subscription a)) (ih authed)

/-- C9: a numeric wire field arriving as a JSON integer, float or string is
accepted by the untagged `NumF64` union, and the `From<NumF64> for f64`
conversion is total — an integer casts to the corresponding float, a float
passes through, a parseable string parses, and an unparseable string yields
exactly 0.0; no variant fails or panics. -/
theorem c9_numf64 (qToFloat : ℚ → Float) (parse : String → Option Float) :
    (∀ q : ℚ, (Rpaca.CryptoWs.NumF64.fromJson qToFloat (Json.num q)).isOk = true) ∧
    (∀ s : String,
      Rpaca.CryptoWs.NumF64.fromJson qToFloat (Json.str s) =
        .ok (Rpaca.CryptoWs.NumF64.S s)) ∧
    (∀ i : Int,
      Rpaca.CryptoWs.NumF64.toF64 parse (Rpaca.CryptoWs.NumF64.I i) = Float.ofInt i) ∧
    (∀ f : Float,
      Rpaca.CryptoWs.NumF64.toF64 parse (Rpaca.CryptoWs.NumF64.F f) = f) ∧
    (∀ (s : String) (x : Float), parse s = some x →
      Rpaca.CryptoWs.NumF64.toF64 parse (Rpaca.CryptoWs.NumF64.S s) = x) ∧
    (∀ s : String, parse s = none →
      Rpaca.CryptoWs.NumF64.toF64 parse (Rpaca.CryptoWs.NumF64.S s) = 0.0) := by
  refine ⟨?_, fun _ => rfl, fun _ => rfl, fun _ => rfl, ?_, ?_⟩
  · intro q
    by_cases h : q.den = 1 <;>
      simp [Rpaca.CryptoWs.NumF64.fromJson, h, Except.isOk, Except.toBool]
  · intro s x h
    simp [Rpaca.CryptoWs.NumF64.toF64, h]
  · intro s h
    simp [Rpaca.CryptoWs.NumF64.toF64, h]

/-- C9, witness: the conversion at concrete inputs — an unparseable string
yields 0.0, a parseable one its parse. -/
theorem c9_witness :
    Rpaca.CryptoWs.NumF64.toF64 (fun _ => none) (Rpaca.CryptoWs.NumF64.S "abc") = 0.0 ∧
    Rpaca.CryptoWs.NumF64.toF64 (fun _ => some 2.5) (Rpaca.CryptoWs.NumF64.S "2.5") = 2.5 :=
  ⟨(c9_numf64 (fun _ => 0.0) (fun _ => none)).2.2.2.2.2 "abc" rfl,
   (c9_numf64 (fun _ => 0.0) (fun _ => some 2.5)).2.2.2.2.1 "2.5" 2.5 rfl⟩

/-- Bind on a successful decode result reduces to the continuation. -/
theorem excBindOk {ε α β : Type} (a : α) (f : α → Except ε β) :
    (Except.ok a >>= f : Except ε β) = f a := rfl

/-- Pure in the Except monad is `ok`. -/
theorem excPureOk {ε α : Type} (a : α) : (pure a : Except ε α) = Except.ok a := rfl

/-- Looking a key up after serializing every value commutes with lookup. -/
theorem lookup_map_strArr :
    ∀ (assign : List (String × List String)) (k : String),
      (assign.map (fun p => (p.1, strArr p.2))).lookup k =
        (assign.lookup k).map strArr
  | [], _ => rfl
  | (k', v) :: rest, k => by
    by_cases h : k = k'
    · simp [List.lookup, h]
    · have hb : (k == k') = false := beq_eq_false_iff_ne.mpr h
      simp [List.lookup, hb, lookup_map_strArr rest k]

/-- Decoding the serialization of a string list gives the list back. -/
theorem decodeAll_map_str :
    ∀ l : List String, decodeAll decodeString (l.map Json.str) = .ok l
  | [] => rfl
  | s :: rest => by simp [decodeAll, decodeString, decodeAll_map_str rest]

/-- Round trip of `strArr` through the `Vec<String>` field decoder. -/
theorem decodeStringList_strArr (l : List String) :
    decodeStringList (strArr l) = .ok l := by
  simp [decodeStringList, strArr, decodeAll_map_str l]

/-- A `serde(default)` list field over a string-array object: present keys
decode to their list, absent keys to the empty list. -/
theorem optListField_assign (assign : List (String × List String)) (k : String) :
    optListField (assign.map (fun p => (p.1, strArr p.2))) k =
      .ok ((assign.lookup k).getD []) := by
  unfold optListField
  rw [lookup_map_strArr]
  cases assign.lookup k <;> simp [decodeStringList_strArr]

/-- C10: decoding a SubscriptionAck object succeeds for any subset of its
channel fields present in the JSON (unknown keys ignored), and every absent
channel field deserializes to the empty list rather than failing the
decode — for the stock ack and the crypto ack alike. -/
theorem c10_ack_decode :
    (∀ assign : List (String × List String),
      SubscriptionAck.fromJson (Json.obj (assign.map (fun p => (p.1, strArr p.2)))) =
        .ok { trades := (assign.lookup "trades").getD []
            , quotes := (assign.lookup "quotes").getD []
            , bars := (assign.lookup "bars").getD []
            , daily_bars := (assign.lookup "dailyBars").getD []
            , updated_bars := (assign.lookup "updatedBars").getD []
            , statuses := (assign.lookup "statuses").getD []
            , lulds := (assign.lookup "lulds").getD []
            , imbalances := (assign.lookup "imbalances").getD []
            , corrections := (assign.lookup "corrections").getD []
            , cancel_errors := (assign.lookup "cancelErrors").getD [] }) ∧
    (∀ assign : List (String × List String),
      Rpaca.CryptoWs.SubscriptionAck.fromJson
          (Json.obj (assign.map (fun p => (p.1, strArr p.2)))) =
        .ok { trades := (assign.lookup "trades").getD []
            , quotes := (assign.lookup "quotes").getD []
            , bars := (assign.lookup "bars").getD []
            , daily_bars := (assign.lookup "dailyBars").getD []
            , updated_bars := (assign.lookup "updatedBars").getD []
            , orderbooks := (assign.lookup "orderbooks").getD [] }) := by
  constructor <;> intro assign
  · simp [SubscriptionAck.fromJson, SubscriptionAck.fromFields,
          optListField_assign, excBindOk, excPureOk]
  · simp [Rpaca.CryptoWs.SubscriptionAck.fromJson,
          Rpaca.CryptoWs.SubscriptionAck.fromFields,
          optListField_assign, excBindOk, excPureOk]
